import Mathlib

/-!
Verification of the Backend Discovery and Adapter Layer of the Gun-Ollama
relay (src/server.js) against its natural-language specification.

The JavaScript source is shallowly embedded: each function of the adapter
core becomes an executable Lean definition; the process environment,
network liveness and subprocess execution are passed in as explicit
oracles; the stateful one-time initialisation becomes explicit state
passing over an adapter-system record.
-/

namespace GunOllama

/-! ## JavaScript string primitives used by the source -/

/-- JavaScript `s.trim()`: strip whitespace from both ends. -/
def jsTrim (s : String) : String :=
  ⟨((s.data.dropWhile Char.isWhitespace).reverse.dropWhile Char.isWhitespace).reverse⟩

/-- Worker for JavaScript `s.split(/\s+/)`: `sep` records whether the
previous character belonged to a whitespace run already emitted. -/
def splitWSGo : Bool → List Char → List Char → List (List Char) → List (List Char)
  | _, [], acc, out => (acc.reverse :: out).reverse
  | sep, c :: cs, acc, out =>
    if c.isWhitespace then
      if sep then splitWSGo true cs acc out
      else splitWSGo true cs [] (acc.reverse :: out)
    else splitWSGo false cs (c :: acc) out

/-- JavaScript `s.split(/\s+/)`: split on runs of whitespace; a leading or
trailing run contributes one empty field, as the JS regex split does. -/
def jsSplitWS (s : String) : List String :=
  (splitWSGo false s.data [] []).map fun l => ⟨l⟩

/-- Worker for JavaScript `s.split('\n')`. -/
def splitLinesGo : List Char → List Char → List (List Char)
  | [], acc => [acc.reverse]
  | c :: cs, acc =>
    if c = '\n' then acc.reverse :: splitLinesGo cs []
    else splitLinesGo cs (c :: acc)

/-- JavaScript `s.split('\n')`. -/
def jsSplitNewline (s : String) : List String :=
  (splitLinesGo s.data []).map fun l => ⟨l⟩

/-- JavaScript `s.replace(/c/g, rep)` for a single-character pattern and a
literal replacement. -/
def jsReplaceChar (pat : Char) (rep : List Char) : List Char → List Char
  | [] => []
  | c :: cs => (if c = pat then rep else [c]) ++ jsReplaceChar pat rep cs

/-! ## Candidate endpoint list (src/server.js:87-105) -/

/-- JavaScript `array.filter(Boolean)` over entries that may be `undefined`
(`none`) or a string: keeps exactly the truthy entries, i.e. the non-empty
strings. -/
def jsFilterBoolean (l : List (Option String)) : List String :=
  l.filterMap fun o =>
    match o with
    | none => none
    | some s => if s = "" then none else some s

/-- The `possibleHosts` array of `findWorkingOllamaHost`
(src/server.js:89-105): `process.env.OLLAMA_HOST` first, then the fixed
candidates in source order, filtered through `filter(Boolean)`. -/
def possibleHosts (envHost : Option String) (localIP : String) : List String :=
  jsFilterBoolean
    [envHost,
     some "http://localhost:11434",
     some "http://127.0.0.1:11434",
     some ("http://" ++ localIP ++ ":11434"),
     some "http://0.0.0.0:11434",
     some "https://lzcollama.ponzs.heiyu.space",
     some "http://baota.ponzs.heiyu.space:11434",
     some "https://a.talkflow.team",
     some "http://host.docker.internal:11434",
     some "http://172.17.0.1:11434",
     some "http://172.18.0.1:11434",
     some "http://192.168.1.1:11434",
     some "http://10.0.0.1:11434"]

/-! ## Endpoint prober (src/server.js:112-122)

`testOllamaConnection` is a bounded-time liveness request; its outcome for
a given host is supplied by the oracle `alive`. The probing loop returns
both the result and, for auditing the claims about probing order, the list
of hosts it performed a liveness check on, in the order checked. -/

/-- The probing loop of `findWorkingOllamaHost` (src/server.js:112-118):
first component is the returned host (JS `null` is `none`), second the
trace of hosts on which a liveness check was performed, in order. -/
def findWorkingOllamaHost (alive : String → Bool) :
    List String → Option String × List String
  | [] => (none, [])
  | h :: t =>
    if alive h then (some h, [h])
    else
      let r := findWorkingOllamaHost alive t
      (r.1, h :: r.2)

/-! ## Subprocess execution (execAsync = promisified child_process.exec)

The behaviour of the operating system for one command is a record: whether
the configured timeout elapsed, the process exit code, and the captured
output streams. `execAsync` resolves with stdout when the process exits 0
within the timeout and rejects otherwise, as Node's promisified `exec`
does; the per-call timeout values of the source (5000 ms for the version
probe, 10000 ms for listing, 60000 ms for chat/generate) bound the real
time behind the `timedOut` flag. -/

structure ExecBehavior where
  timedOut : Bool
  exitCode : Nat
  stdout : String
  stderr : String
deriving DecidableEq, Repr

/-- Node `promisify(exec)`: rejects on timeout (the process is killed) or
on a non-zero exit code, otherwise resolves with the captured stdout. -/
def execAsync (run : String → ExecBehavior) (cmd : String) : Except String String :=
  let b := run cmd
  if b.timedOut then Except.error "timeout"
  else if b.exitCode ≠ 0 then Except.error ("non-zero exit " ++ toString b.exitCode)
  else Except.ok b.stdout

/-- `testOllamaCLI` (src/server.js:125-135): true when
`execAsync('ollama --version', timeout 5000)` does not throw. -/
def testOllamaCLI (run : String → ExecBehavior) : Bool :=
  match execAsync run "ollama --version" with
  | Except.ok _ => true
  | Except.error _ => false

/-! ## CLI model listing (src/server.js:138-157) -/

structure ModelDescriptor where
  name : String
  modified_at : String
  size : String
  digest : String
deriving DecidableEq, Repr

/-- One row of `ollama list` output (src/server.js:145-151):
`line.split(/\s+/)` and positional assignment of the first four parts,
missing trailing parts defaulting to the empty string. -/
def parseModelLine (line : String) : ModelDescriptor :=
  let parts := jsSplitWS line
  { name := parts.getD 0 "",
    modified_at := parts.getD 1 "",
    size := parts.getD 2 "",
    digest := parts.getD 3 "" }

/-- The line pipeline of `getModelsViaCLI` (src/server.js:141-152): drop
the first (header) line, drop lines that are blank after trimming, parse
each remaining line positionally. -/
def parseModelLines (lines : List String) : List ModelDescriptor :=
  ((lines.drop 1).filter fun l => jsTrim l != "").map parseModelLine

/-- The parsing stage of `getModelsViaCLI` applied to the raw stdout:
`stdout.trim().split('\n')` then the line pipeline. -/
def parseOllamaListOutput (stdout : String) : List ModelDescriptor :=
  parseModelLines (jsSplitNewline (jsTrim stdout))

/-- `getModelsViaCLI` (src/server.js:138-157): run `ollama list`
(timeout 10000), parse its stdout; a rejection is rethrown with the
`CLI List Error:` prefix. -/
def getModelsViaCLI (run : String → ExecBehavior) :
    Except String (List ModelDescriptor) :=
  match execAsync run "ollama list" with
  | Except.ok out => Except.ok (parseOllamaListOutput out)
  | Except.error m => Except.error ("CLI List Error: " ++ m)

/-! ## CLI chat and generate (src/server.js:160-203) -/

/-- The prompt serialisation of `chatViaCLI`/`generateViaCLI`
(src/server.js:164 and 188): `.replace(/"/g, '\\"').replace(/\$/g, '\\$')`. -/
def escapePrompt (s : String) : String :=
  ⟨jsReplaceChar '$' ['\\', '$'] (jsReplaceChar '"' ['\\', '"'] s.data)⟩

structure Message where
  role : String
  content : String
deriving DecidableEq, Repr

/-- Outcome of a CLI chat/generate invocation: the assistant text of the
response envelope, or the message of the error the function throws. -/
inductive ChatOutcome
  | ok (content : String)
  | err (msg : String)
deriving DecidableEq, Repr

/-- Observable side effects of a request handler. -/
inductive Effect
  | network (host : String)
  | subprocess (cmd : String)
deriving DecidableEq, Repr

/-- The message of the JavaScript TypeError thrown by
`messages[messages.length - 1].content` when `messages` is empty. -/
def typeErrorUndefinedContent : String :=
  "Cannot read properties of undefined (reading content)"

/-- `chatViaCLI` (src/server.js:160-183): serialise the last message into
one `echo "..." | ollama run model` invocation (timeout 60000, maxBuffer
1 MiB); for an empty message list the unguarded access throws a TypeError
that the catch block wraps; the second component records the subprocess
invocations performed. -/
def chatViaCLI (run : String → ExecBehavior) (model : String)
    (messages : List Message) : ChatOutcome × List Effect :=
  match messages.getLast? with
  | none => (ChatOutcome.err ("CLI Chat Error: " ++ typeErrorUndefinedContent), [])
  | some lastMessage =>
    let prompt := escapePrompt lastMessage.content
    let cmd := "echo \"" ++ prompt ++ "\" | ollama run " ++ model
    match execAsync run cmd with
    | Except.ok out => (ChatOutcome.ok (jsTrim out), [Effect.subprocess cmd])
    | Except.error m =>
      (ChatOutcome.err ("CLI Chat Error: " ++ m), [Effect.subprocess cmd])

/-- `generateViaCLI` (src/server.js:186-203): same invocation built from
the request prompt. -/
def generateViaCLI (run : String → ExecBehavior) (model : String)
    (prompt : String) : ChatOutcome × List Effect :=
  let cleanPrompt := escapePrompt prompt
  let cmd := "echo \"" ++ cleanPrompt ++ "\" | ollama run " ++ model
  match execAsync run cmd with
  | Except.ok out => (ChatOutcome.ok (jsTrim out), [Effect.subprocess cmd])
  | Except.error m =>
    (ChatOutcome.err ("CLI Generate Error: " ++ m), [Effect.subprocess cmd])

/-! ## Backend mode and adapter state (src/server.js:240-292) -/

inductive Mode
  | networkAPI
  | cliFallback
  | unavailable
deriving DecidableEq, Repr

/-- The adapter variables the route closures read (src/server.js:240-242):
`ollama` is the SDK client, carried here as the host it is bound to. -/
structure OllamaState where
  ollama : Option String
  useCLI : Bool
  activeOllamaHost : String
deriving DecidableEq, Repr

/-- The resolved backend mode, as the status route derives it
(src/server.js:658): `ollama ? "HTTP API" : (useCLI ? "CLI Mode" : "Unavailable")`. -/
def OllamaState.mode (s : OllamaState) : Mode :=
  match s.ollama with
  | some _ => Mode.networkAPI
  | none => if s.useCLI then Mode.cliFallback else Mode.unavailable

/-- Error body of the `checkOllamaConnection` middleware (src/server.js:297-310). -/
def ollamaUnavailableMsg : String := "Ollama 服务不可用"

/-- Error body of the CLI streaming rejection (src/server.js:370-375, 424-429). -/
def cliStreamingMsg : String := "CLI 模式不支持流式响应"

/-- Error body of the HTTP-API-only guard on the management routes
(src/server.js:446-450 and the analogous guards). -/
def httpOnlyMsg : String := "此功能仅支持 HTTP API 模式"

/-- Condition of the `checkOllamaConnection` middleware (src/server.js:298):
`!ollama && !useCLI`. -/
def connectionUnavailable (st : OllamaState) : Bool :=
  st.ollama.isNone && !st.useCLI

/-- The observable result of one HTTP route: status code, the `error`
field of the JSON body for error responses, and the side effects. -/
structure RouteResult where
  status : Nat
  errorMsg : Option String
  effects : List Effect
deriving DecidableEq, Repr

structure ChatRequest where
  model : String
  messages : List Message
  stream : Bool
deriving DecidableEq, Repr

structure GenerateRequest where
  model : String
  prompt : String
  stream : Bool
deriving DecidableEq, Repr

/-- POST /api/chat (src/server.js:337-388). `net` is the outcome of the
SDK call when the network transport is active. -/
def chatRoute (st : OllamaState) (run : String → ExecBehavior)
    (net : Except String Unit) (req : ChatRequest) : RouteResult :=
  if connectionUnavailable st then ⟨503, some ollamaUnavailableMsg, []⟩
  else
    match st.ollama with
    | some host =>
      (match net with
       | Except.ok _ => ⟨200, none, [Effect.network host]⟩
       | Except.error m => ⟨500, some m, [Effect.network host]⟩)
    | none =>
      -- useCLI holds here: the middleware rejected the remaining case
      if req.stream then ⟨400, some cliStreamingMsg, []⟩
      else
        let r := chatViaCLI run req.model req.messages
        match r.1 with
        | ChatOutcome.ok _ => ⟨200, none, r.2⟩
        | ChatOutcome.err m => ⟨500, some m, r.2⟩

/-- POST /api/generate (src/server.js:391-442). -/
def generateRoute (st : OllamaState) (run : String → ExecBehavior)
    (net : Except String Unit) (req : GenerateRequest) : RouteResult :=
  if connectionUnavailable st then ⟨503, some ollamaUnavailableMsg, []⟩
  else
    match st.ollama with
    | some host =>
      (match net with
       | Except.ok _ => ⟨200, none, [Effect.network host]⟩
       | Except.error m => ⟨500, some m, [Effect.network host]⟩)
    | none =>
      if req.stream then ⟨400, some cliStreamingMsg, []⟩
      else
        let r := generateViaCLI run req.model req.prompt
        match r.1 with
        | ChatOutcome.ok _ => ⟨200, none, r.2⟩
        | ChatOutcome.err m => ⟨500, some m, r.2⟩

/-- GET /api/models (src/server.js:313-334). -/
def modelsRoute (st : OllamaState) (run : String → ExecBehavior)
    (net : Except String Unit) : RouteResult :=
  if connectionUnavailable st then ⟨503, some ollamaUnavailableMsg, []⟩
  else
    match st.ollama with
    | some host =>
      (match net with
       | Except.ok _ => ⟨200, none, [Effect.network host]⟩
       | Except.error m => ⟨500, some m, [Effect.network host]⟩)
    | none =>
      match getModelsViaCLI run with
      | Except.ok _ => ⟨200, none, [Effect.subprocess "ollama list"]⟩
      | Except.error m => ⟨500, some m, [Effect.subprocess "ollama list"]⟩

/-- POST /api/models/create (src/server.js:445-479): HTTP-API only. -/
def createModelRoute (st : OllamaState) (net : Except String Unit)
    (name modelfile : String) : RouteResult :=
  if connectionUnavailable st then ⟨503, some ollamaUnavailableMsg, []⟩
  else
    match st.ollama with
    | none => ⟨400, some httpOnlyMsg, []⟩
    | some host =>
      match net with
      | Except.ok _ => ⟨200, none, [Effect.network host]⟩
      | Except.error m => ⟨500, some m, [Effect.network host]⟩

/-- DELETE /api/models/:name (src/server.js:482-499): HTTP-API only. -/
def deleteModelRoute (st : OllamaState) (net : Except String Unit)
    (name : String) : RouteResult :=
  if connectionUnavailable st then ⟨503, some ollamaUnavailableMsg, []⟩
  else
    match st.ollama with
    | none => ⟨400, some httpOnlyMsg, []⟩
    | some host =>
      match net with
      | Except.ok _ => ⟨200, none, [Effect.network host]⟩
      | Except.error m => ⟨500, some m, [Effect.network host]⟩

/-- POST /api/models/copy (src/server.js:502-519): HTTP-API only. -/
def copyModelRoute (st : OllamaState) (net : Except String Unit)
    (source destination : String) : RouteResult :=
  if connectionUnavailable st then ⟨503, some ollamaUnavailableMsg, []⟩
  else
    match st.ollama with
    | none => ⟨400, some httpOnlyMsg, []⟩
    | some host =>
      match net with
      | Except.ok _ => ⟨200, none, [Effect.network host]⟩
      | Except.error m => ⟨500, some m, [Effect.network host]⟩

/-- GET /api/models/:name (src/server.js:522-539): HTTP-API only. -/
def showModelRoute (st : OllamaState) (net : Except String Unit)
    (name : String) : RouteResult :=
  if connectionUnavailable st then ⟨503, some ollamaUnavailableMsg, []⟩
  else
    match st.ollama with
    | none => ⟨400, some httpOnlyMsg, []⟩
    | some host =>
      match net with
      | Except.ok _ => ⟨200, none, [Effect.network host]⟩
      | Except.error m => ⟨500, some m, [Effect.network host]⟩

/-- POST /api/models/pull (src/server.js:542-577): HTTP-API only. -/
def pullModelRoute (st : OllamaState) (net : Except String Unit)
    (name : String) : RouteResult :=
  if connectionUnavailable st then ⟨503, some ollamaUnavailableMsg, []⟩
  else
    match st.ollama with
    | none => ⟨400, some httpOnlyMsg, []⟩
    | some host =>
      match net with
      | Except.ok _ => ⟨200, none, [Effect.network host]⟩
      | Except.error m => ⟨500, some m, [Effect.network host]⟩

/-- POST /api/models/push (src/server.js:580-615): HTTP-API only. -/
def pushModelRoute (st : OllamaState) (net : Except String Unit)
    (name : String) : RouteResult :=
  if connectionUnavailable st then ⟨503, some ollamaUnavailableMsg, []⟩
  else
    match st.ollama with
    | none => ⟨400, some httpOnlyMsg, []⟩
    | some host =>
      match net with
      | Except.ok _ => ⟨200, none, [Effect.network host]⟩
      | Except.error m => ⟨500, some m, [Effect.network host]⟩

/-- POST /api/embeddings (src/server.js:618-638): HTTP-API only. -/
def embeddingsRoute (st : OllamaState) (net : Except String Unit)
    (model prompt : String) : RouteResult :=
  if connectionUnavailable st then ⟨503, some ollamaUnavailableMsg, []⟩
  else
    match st.ollama with
    | none => ⟨400, some httpOnlyMsg, []⟩
    | some host =>
      match net with
      | Except.ok _ => ⟨200, none, [Effect.network host]⟩
      | Except.error m => ⟨500, some m, [Effect.network host]⟩

/-- Body of GET /api/status (src/server.js:641-667), restricted to the
ollama section. -/
structure StatusReport where
  httpAvailable : Bool
  httpHost : Option String
  cliAvailable : Bool
  overall : String
deriving DecidableEq, Repr

/-- GET /api/status (src/server.js:641-667): always a 200, read-only. -/
def statusRoute (st : OllamaState) : StatusReport :=
  { httpAvailable := st.ollama.isSome,
    httpHost := if st.ollama.isSome then some st.activeOllamaHost else none,
    cliAvailable := st.useCLI,
    overall :=
      match st.ollama with
      | some _ => "HTTP API"
      | none => if st.useCLI then "CLI Mode" else "Unavailable" }

/-! ## One-time initialisation (src/server.js:205-292) -/

/-- The collaborators `init` consults: the process environment, the
network liveness of each candidate host, the outcome of the verification
call `ollama.list()` of the SDK client, and the subprocess oracle. -/
structure Env where
  envOllamaHost : Option String
  localIP : String
  alive : String → Bool
  sdkListOk : Bool
  run : String → ExecBehavior

/-- Whether `getModelsViaCLI` resolves (the CLI probing step at
src/server.js:275 succeeds). -/
def cliListWorks (run : String → ExecBehavior) : Bool :=
  match getModelsViaCLI run with
  | Except.ok _ => true
  | Except.error _ => false

/-- The adapter state `init` leaves behind (src/server.js:236-292):
probe the candidate hosts; on success construct the SDK client and verify
with `ollama.list()`; when no client resulted, fall back to the CLI probe
followed by a CLI listing test; `activeOllamaHost` is
`workingHost || ollamaHost` with the config default
`process.env.OLLAMA_HOST || "http://localhost:11434"`. -/
def initOllamaState (e : Env) : OllamaState :=
  let workingHost :=
    (findWorkingOllamaHost e.alive (possibleHosts e.envOllamaHost e.localIP)).1
  let ollama : Option String :=
    match workingHost with
    | some h => if e.sdkListOk then some h else none
    | none => none
  let useCLI : Bool := ollama.isNone && (testOllamaCLI e.run && cliListWorks e.run)
  let ollamaHost :=
    match e.envOllamaHost with
    | some h => if h = "" then "http://localhost:11434" else h
    | none => "http://localhost:11434"
  { ollama := ollama, useCLI := useCLI,
    activeOllamaHost := workingHost.getD ollamaHost }

/-- The exported object (src/server.js:205-209): the `initiated` flag, the
adapter state, and counters of how many times the endpoint prober and the
CLI probe have been invoked. -/
structure AdapterSys where
  initiated : Bool
  st : OllamaState
  proberRuns : Nat
  cliProbeRuns : Nat
deriving DecidableEq, Repr

/-- What a call of `init` evaluates to: the `{ app, db }` object of a full
run (src/server.js:754), or JavaScript `undefined` from the bare
`return;` of a repeated call (src/server.js:208). -/
inductive InitRet
  | appDb
  | undef
deriving DecidableEq, Repr

/-- The exported object before any call: `initiated: false`, the adapter
variables not yet in existence (placeholder state), no probes run. -/
def initialSys : AdapterSys :=
  { initiated := false,
    st := { ollama := none, useCLI := false, activeOllamaHost := "" },
    proberRuns := 0, cliProbeRuns := 0 }

/-- `init` (src/server.js:207-755): a repeated call returns `undefined`
immediately; a first call probes (prober always runs once, the CLI probe
exactly when no SDK client resulted) and resolves the adapter state. -/
def runInit (e : Env) (s : AdapterSys) : InitRet × AdapterSys :=
  if s.initiated then (InitRet.undef, s)
  else
    let st := initOllamaState e
    (InitRet.appDb,
     { initiated := true, st := st,
       proberRuns := s.proberRuns + 1,
       cliProbeRuns := s.cliProbeRuns + (if st.ollama.isNone then 1 else 0) })

/-! ## The request surface after initialisation -/

/-- One HTTP request against the adapter, with the oracles for the
transports it may consult. -/
inductive ApiCall
  | chat (run : String → ExecBehavior) (net : Except String Unit) (req : ChatRequest)
  | generate (run : String → ExecBehavior) (net : Except String Unit) (req : GenerateRequest)
  | models (run : String → ExecBehavior) (net : Except String Unit)
  | createModel (net : Except String Unit) (name modelfile : String)
  | deleteModel (net : Except String Unit) (name : String)
  | copyModel (net : Except String Unit) (source destination : String)
  | showModel (net : Except String Unit) (name : String)
  | pullModel (net : Except String Unit) (name : String)
  | pushModel (net : Except String Unit) (name : String)
  | embeddings (net : Except String Unit) (model prompt : String)
  | status

/-- Dispatch of one request: the handlers of src/server.js:313-667 read
the adapter variables and never assign them, so each handler returns the
state it was given. -/
def serverStep (st : OllamaState) : ApiCall → RouteResult × OllamaState
  | ApiCall.chat run net req => (chatRoute st run net req, st)
  | ApiCall.generate run net req => (generateRoute st run net req, st)
  | ApiCall.models run net => (modelsRoute st run net, st)
  | ApiCall.createModel net name modelfile => (createModelRoute st net name modelfile, st)
  | ApiCall.deleteModel net name => (deleteModelRoute st net name, st)
  | ApiCall.copyModel net source destination => (copyModelRoute st net source destination, st)
  | ApiCall.showModel net name => (showModelRoute st net name, st)
  | ApiCall.pullModel net name => (pullModelRoute st net name, st)
  | ApiCall.pushModel net name => (pushModelRoute st net name, st)
  | ApiCall.embeddings net model prompt => (embeddingsRoute st net model prompt, st)
  | ApiCall.status =>
    (⟨200, none, []⟩, st)

/-- The adapter state after serving a sequence of requests. -/
def runCalls (st : OllamaState) (calls : List ApiCall) : OllamaState :=
  calls.foldl (fun s c => (serverStep s c).2) st

/-! ## Specification-side definitions and concrete fixtures -/

/-- The character map the claim about prompt serialisation describes:
a double quote becomes backslash-quote, a dollar becomes backslash-dollar,
every other character is untouched. -/
def escapeSpecChar (c : Char) : List Char :=
  if c = '"' then ['\\', '"'] else if c = '$' then ['\\', '$'] else [c]

/-- Stated from the claim wording (not from the source), for comparison
with escapePrompt: the per-character expansion applied across the text. -/
def escapeSpec (s : String) : String := ⟨(s.data.map escapeSpecChar).flatten⟩

/-- A fixture environment: every candidate host dead, the SDK verification
failing, the CLI functional (version command exits 0 with output). -/
def envAllHostsDown : Env :=
  { envOllamaHost := none, localIP := "192.168.1.50",
    alive := fun _ => false, sdkListOk := false,
    run := fun _ =>
      { timedOut := false, exitCode := 0,
        stdout := "ollama version is 0.1.0", stderr := "" } }

/-- A fixture subprocess behaviour: exit status 0 within the timeout but
empty standard output. -/
def zeroExitEmptyStdout : ExecBehavior :=
  { timedOut := false, exitCode := 0, stdout := "", stderr := "" }

/-- A fixture adapter state in CliFallback mode. -/
def cliOnlyState : OllamaState :=
  { ollama := none, useCLI := true, activeOllamaHost := "http://localhost:11434" }

/-- A fixture adapter state in Unavailable mode. -/
def noBackendState : OllamaState :=
  { ollama := none, useCLI := false, activeOllamaHost := "http://localhost:11434" }

/-- A fixture subprocess oracle. -/
def dummyRun : String → ExecBehavior := fun _ => zeroExitEmptyStdout

/-! ## Helper lemmas -/

theorem host_ne_empty (ip : String) : ("http://" ++ ip ++ ":11434") ≠ "" := by
  intro h
  have hl := congrArg String.length h
  simp [String.length_append] at hl
  exact absurd hl.1.1 (by decide)

theorem findWorkingOllamaHost_hit (alive : String → Bool) :
    ∀ (hosts : List String) (k : Nat) (hk : k < hosts.length),
      alive hosts[k] = true →
      (∀ h ∈ hosts.take k, alive h = false) →
      findWorkingOllamaHost alive hosts = (some hosts[k], hosts.take (k + 1)) := by
  intro hosts
  induction hosts with
  | nil => intro k hk; simp at hk
  | cons h t ih =>
    intro k hk hhit hmiss
    cases k with
    | zero =>
      simp only [List.getElem_cons_zero] at hhit
      simp [findWorkingOllamaHost, hhit]
    | succ k =>
      have hh : alive h = false := hmiss h (by simp [List.take_succ_cons])
      have ht := ih k (by simpa using Nat.lt_of_succ_lt_succ hk)
        (by simpa using hhit)
        (fun x hx => hmiss x (by simp [List.take_succ_cons, hx]))
      simp [findWorkingOllamaHost, hh, ht, List.take_succ_cons]

theorem findWorkingOllamaHost_exhausted (alive : String → Bool) :
    ∀ hosts : List String, (∀ h ∈ hosts, alive h = false) →
      findWorkingOllamaHost alive hosts = (none, hosts) := by
  intro hosts
  induction hosts with
  | nil => intro; rfl
  | cons h t ih =>
    intro hall
    have hh : alive h = false := hall h (by simp)
    have ht := ih (fun x hx => hall x (by simp [hx]))
    simp [findWorkingOllamaHost, hh, ht]

theorem jsReplaceChar_append (pat : Char) (rep : List Char) (a b : List Char) :
    jsReplaceChar pat rep (a ++ b) = jsReplaceChar pat rep a ++ jsReplaceChar pat rep b := by
  induction a with
  | nil => rfl
  | cons c cs ih => simp [jsReplaceChar, ih]

theorem escape_chain (l : List Char) :
    jsReplaceChar '$' ['\\', '$'] (jsReplaceChar '"' ['\\', '"'] l)
      = (l.map escapeSpecChar).flatten := by
  induction l with
  | nil => rfl
  | cons c cs ih =>
    by_cases h1 : c = '"'
    · subst h1
      simp [jsReplaceChar, jsReplaceChar_append, ih, escapeSpecChar]
    · by_cases h2 : c = '$'
      · subst h2
        simp [jsReplaceChar, jsReplaceChar_append, ih, escapeSpecChar]
      · simp [jsReplaceChar, jsReplaceChar_append, ih, escapeSpecChar, h1, h2]

theorem escapePrompt_eq_escapeSpec (s : String) : escapePrompt s = escapeSpec s :=
  congrArg String.mk (escape_chain s.data)

theorem chatViaCLI_effects (run : String → ExecBehavior) (model : String)
    (messages : List Message) (msg : Message) (h : messages.getLast? = some msg) :
    (chatViaCLI run model messages).2
      = [Effect.subprocess ("echo \"" ++ escapePrompt msg.content ++ "\" | ollama run " ++ model)] := by
  rcases hx : execAsync run ("echo \"" ++ escapePrompt msg.content ++ "\" | ollama run " ++ model)
      with m | m <;>
    simp [chatViaCLI, h, hx]

theorem generateViaCLI_effects (run : String → ExecBehavior) (model prompt : String) :
    (generateViaCLI run model prompt).2
      = [Effect.subprocess ("echo \"" ++ escapePrompt prompt ++ "\" | ollama run " ++ model)] := by
  rcases hx : execAsync run ("echo \"" ++ escapePrompt prompt ++ "\" | ollama run " ++ model)
      with m | m <;>
    simp [generateViaCLI, hx]

theorem serverStep_preserves (st : OllamaState) (c : ApiCall) : (serverStep st c).2 = st := by
  cases c <;> rfl

theorem runCalls_id (st : OllamaState) (calls : List ApiCall) : runCalls st calls = st := by
  induction calls with
  | nil => rfl
  | cons c cs ih =>
    simp only [runCalls, List.foldl_cons, serverStep_preserves] at ih ⊢
    exact ih

theorem initOllamaState_not_both (e : Env) :
    ¬ ((initOllamaState e).ollama.isSome = true ∧ (initOllamaState e).useCLI = true) := by
  unfold initOllamaState
  cases (findWorkingOllamaHost e.alive (possibleHosts e.envOllamaHost e.localIP)).1 with
  | none => simp
  | some h => by_cases hs : e.sdkListOk <;> simp [hs]

theorem mode_trichotomy (st : OllamaState) :
    (st.mode = Mode.networkAPI ↔ st.ollama.isSome = true)
    ∧ (st.mode = Mode.cliFallback ↔ (st.ollama = none ∧ st.useCLI = true))
    ∧ (st.mode = Mode.unavailable ↔ (st.ollama = none ∧ st.useCLI = false)) := by
  rcases st with ⟨ollama, useCLI, host⟩
  cases ollama <;> cases useCLI <;> simp [OllamaState.mode]

/-! ## Claim theorems -/

/-- Claim C1: when the k-th candidate is the first whose liveness check
succeeds, the probing loop of findWorkingOllamaHost returns exactly that
k-th URL and its check trace is exactly the first k+1 candidates in list
order, so no candidate past index k is checked; for an empty or
all-failing candidate list it returns none after checking every candidate
in order. -/
theorem probe_first_success_and_exhaustion :
    (∀ (alive : String → Bool) (hosts : List String) (k : Nat) (hk : k < hosts.length),
        alive hosts[k] = true →
        (∀ h ∈ hosts.take k, alive h = false) →
        findWorkingOllamaHost alive hosts = (some hosts[k], hosts.take (k + 1)))
    ∧ (∀ (alive : String → Bool) (hosts : List String),
        (∀ h ∈ hosts, alive h = false) →
        findWorkingOllamaHost alive hosts = (none, hosts))
    ∧ (∀ alive : String → Bool, findWorkingOllamaHost alive [] = (none, [])) :=
  ⟨fun alive hosts k hk => findWorkingOllamaHost_hit alive hosts k hk,
   fun alive hosts => findWorkingOllamaHost_exhausted alive hosts,
   fun _ => rfl⟩

/-- Witness for C1 at a concrete candidate list: the second candidate is
the first live one; the loop returns it after checking exactly the first
two candidates, and an all-failing list yields none. -/
theorem probe_first_success_and_exhaustion_witness :
    findWorkingOllamaHost (fun s => s == "http://b") ["http://a", "http://b", "http://c"]
        = (some "http://b", ["http://a", "http://b"])
    ∧ findWorkingOllamaHost (fun s => s == "http://z") ["http://a", "http://b"]
        = (none, ["http://a", "http://b"]) := by
  constructor
  · exact probe_first_success_and_exhaustion.1 (fun s => s == "http://b")
      ["http://a", "http://b", "http://c"] 1 (by decide) (by decide) (by decide)
  · exact probe_first_success_and_exhaustion.2.1 (fun s => s == "http://z")
      ["http://a", "http://b"] (by decide)

/-- Claim C2 counterexample: with every host down and a working CLI, the
first init call resolves CliFallback and returns the app object, but the
second call returns undefined, not the previously resolved mode (it does
leave the state, and hence the probe counters, untouched). -/
theorem init_second_call_returns_undefined :
    (runInit envAllHostsDown initialSys).1 = InitRet.appDb
    ∧ (runInit envAllHostsDown initialSys).2.st.mode = Mode.cliFallback
    ∧ (runInit envAllHostsDown (runInit envAllHostsDown initialSys).2).1 = InitRet.undef
    ∧ (runInit envAllHostsDown (runInit envAllHostsDown initialSys).2).2
        = (runInit envAllHostsDown initialSys).2
    ∧ InitRet.undef ≠ InitRet.appDb :=
  ⟨rfl, rfl, rfl, rfl, by decide⟩

/-- Claim C2 amended: once init has run, every subsequent init call
returns undefined immediately and leaves the whole adapter system
unchanged, so the resolved mode is untouched and neither the endpoint
prober nor the CLI probe is re-invoked (the probe counters do not move). -/
theorem init_repeat_noop (e : Env) (s : AdapterSys) (h : s.initiated = true) :
    runInit e s = (InitRet.undef, s) := by
  simp [runInit, h]

/-- Witness for the amended C2 at the state left by a concrete first call. -/
theorem init_repeat_noop_witness :
    runInit envAllHostsDown (runInit envAllHostsDown initialSys).2
      = (InitRet.undef, (runInit envAllHostsDown initialSys).2) :=
  init_repeat_noop envAllHostsDown (runInit envAllHostsDown initialSys).2 rfl

/-- Claim C3 counterexample: the candidate list is not deduplicated (an
explicitly configured endpoint equal to the loopback entry appears twice),
and the known remote fallbacks are not last: the remote fallback
a.talkflow.team precedes the container-gateway address 172.17.0.1. -/
theorem possibleHosts_dup_and_remote_before_container :
    ¬ (possibleHosts (some "http://localhost:11434") "192.168.1.50").Nodup
    ∧ (possibleHosts none "192.168.1.50").findIdx (fun s => s == "https://a.talkflow.team")
        < (possibleHosts none "192.168.1.50").findIdx (fun s => s == "http://172.17.0.1:11434") := by
  decide

/-- Claim C3 amended: the candidate list removes undefined and empty
entries but is not deduplicated; its order is: the explicitly configured
endpoint, the loopback addresses, the discovered LAN address, the wildcard
address, the known remote fallbacks, the container-gateway addresses, and
the common gateway guesses last. -/
theorem possibleHosts_content (envHost : Option String) (localIP : String) :
    possibleHosts envHost localIP =
      (match envHost with
       | some h => if h = "" then [] else [h]
       | none => []) ++
      ["http://localhost:11434", "http://127.0.0.1:11434",
       "http://" ++ localIP ++ ":11434", "http://0.0.0.0:11434",
       "https://lzcollama.ponzs.heiyu.space", "http://baota.ponzs.heiyu.space:11434",
       "https://a.talkflow.team", "http://host.docker.internal:11434",
       "http://172.17.0.1:11434", "http://172.18.0.1:11434",
       "http://192.168.1.1:11434", "http://10.0.0.1:11434"] := by
  have hip := host_ne_empty localIP
  cases envHost with
  | none => simp [possibleHosts, jsFilterBoolean, hip]
  | some h =>
    by_cases hh : h = "" <;> simp [possibleHosts, jsFilterBoolean, hip, hh]

/-- Claim C4 counterexample: a version command that exits 0 within the
timeout with empty standard output makes testOllamaCLI return true, where
the claim requires false for empty stdout. -/
theorem testOllamaCLI_true_on_empty_stdout :
    testOllamaCLI (fun _ => zeroExitEmptyStdout) = true
    ∧ zeroExitEmptyStdout.exitCode = 0
    ∧ zeroExitEmptyStdout.timedOut = false
    ∧ zeroExitEmptyStdout.stdout = "" :=
  ⟨rfl, rfl, rfl, rfl⟩

/-- Claim C4 amended: testOllamaCLI returns true exactly when the version
command completes within the timeout with exit status 0; the content of
standard output, including emptiness, is irrelevant. -/
theorem testOllamaCLI_iff (run : String → ExecBehavior) :
    testOllamaCLI run = true ↔
      ((run "ollama --version").timedOut = false
        ∧ (run "ollama --version").exitCode = 0) := by
  by_cases ht : (run "ollama --version").timedOut <;>
    by_cases hc : (run "ollama --version").exitCode = 0 <;>
      simp [testOllamaCLI, execAsync, ht, hc]

/-- Claim C5: CLI model-list parsing discards the first line whatever its
content, drops blank lines, maps the whitespace-split fields positionally
to name, modified_at, size and digest with missing trailing fields
defaulting to the empty string; on the claimed concrete input it yields
exactly one descriptor with digest "2". -/
theorem parseOllamaList_spec :
    (parseOllamaListOutput "NAME\tID\tSIZE\tMODIFIED\nllama3\tabc123\t4.1GB\t2 days ago\n"
        = [{ name := "llama3", modified_at := "abc123", size := "4.1GB", digest := "2" }])
    ∧ (∀ (h1 h2 : String) (rest : List String),
        parseModelLines (h1 :: rest) = parseModelLines (h2 :: rest))
    ∧ (∀ (hd blank : String) (pre post : List String), jsTrim blank = "" →
        parseModelLines (hd :: (pre ++ blank :: post))
          = parseModelLines (hd :: (pre ++ post)))
    ∧ (∀ (line a b c d : String) (rest : List String),
        jsSplitWS line = a :: b :: c :: d :: rest →
        parseModelLine line = { name := a, modified_at := b, size := c, digest := d })
    ∧ (∀ line w : String, jsSplitWS line = [w] →
        parseModelLine line = { name := w, modified_at := "", size := "", digest := "" }) := by
  refine ⟨rfl, fun h1 h2 rest => rfl, ?_, ?_, ?_⟩
  · intro hd blank pre post hblank
    have hb : (jsTrim blank != "") = false := by simp [hblank]
    simp [parseModelLines, List.filter_append, hb]
  · intro line a b c d rest hsplit
    simp [parseModelLine, hsplit]
  · intro line w hsplit
    simp [parseModelLine, hsplit]

/-- Claim C6: a chat or generate request with stream set, served while the
adapter is in CliFallback, is rejected with the streaming-unsupported
client error (status 400) and performs no side effect, in particular no
subprocess invocation. -/
theorem cli_stream_rejected (st : OllamaState) (run : String → ExecBehavior)
    (net : Except String Unit) (creq : ChatRequest) (greq : GenerateRequest)
    (holl : st.ollama = none) (hcli : st.useCLI = true)
    (hcs : creq.stream = true) (hgs : greq.stream = true) :
    chatRoute st run net creq = ⟨400, some cliStreamingMsg, []⟩
    ∧ generateRoute st run net greq = ⟨400, some cliStreamingMsg, []⟩ := by
  have hcu : connectionUnavailable st = false := by
    simp [connectionUnavailable, holl, hcli]
  exact ⟨by simp [chatRoute, hcu, holl, hcs], by simp [generateRoute, hcu, holl, hgs]⟩

/-- Witness for C6 at a concrete CliFallback state and streaming request. -/
theorem cli_stream_rejected_witness :
    chatRoute cliOnlyState dummyRun (Except.ok ())
        { model := "llama3", messages := [{ role := "user", content := "hi" }], stream := true }
      = ⟨400, some cliStreamingMsg, []⟩ :=
  (cli_stream_rejected cliOnlyState dummyRun (Except.ok ())
    { model := "llama3", messages := [{ role := "user", content := "hi" }], stream := true }
    { model := "llama3", prompt := "hi", stream := true } rfl rfl rfl rfl).1

/-- Claim C7: every management operation (create, delete, copy, show,
pull, push) and embeddings fails under CliFallback with the
HTTP-API-only client error (status 400), issuing no process or network
call, while the same operations under Unavailable fail with the distinct
service-unavailable error (status 503), so a caller can distinguish the
two cases. -/
theorem management_unsupported_by_mode (stCli stUn : OllamaState)
    (net : Except String Unit) (name modelfile source destination model prompt : String)
    (h1 : stCli.ollama = none) (h2 : stCli.useCLI = true)
    (h3 : stUn.ollama = none) (h4 : stUn.useCLI = false) :
    createModelRoute stCli net name modelfile = ⟨400, some httpOnlyMsg, []⟩
    ∧ deleteModelRoute stCli net name = ⟨400, some httpOnlyMsg, []⟩
    ∧ copyModelRoute stCli net source destination = ⟨400, some httpOnlyMsg, []⟩
    ∧ showModelRoute stCli net name = ⟨400, some httpOnlyMsg, []⟩
    ∧ pullModelRoute stCli net name = ⟨400, some httpOnlyMsg, []⟩
    ∧ pushModelRoute stCli net name = ⟨400, some httpOnlyMsg, []⟩
    ∧ embeddingsRoute stCli net model prompt = ⟨400, some httpOnlyMsg, []⟩
    ∧ createModelRoute stUn net name modelfile = ⟨503, some ollamaUnavailableMsg, []⟩
    ∧ deleteModelRoute stUn net name = ⟨503, some ollamaUnavailableMsg, []⟩
    ∧ copyModelRoute stUn net source destination = ⟨503, some ollamaUnavailableMsg, []⟩
    ∧ showModelRoute stUn net name = ⟨503, some ollamaUnavailableMsg, []⟩
    ∧ pullModelRoute stUn net name = ⟨503, some ollamaUnavailableMsg, []⟩
    ∧ pushModelRoute stUn net name = ⟨503, some ollamaUnavailableMsg, []⟩
    ∧ embeddingsRoute stUn net model prompt = ⟨503, some ollamaUnavailableMsg, []⟩
    ∧ (⟨400, some httpOnlyMsg, []⟩ : RouteResult) ≠ ⟨503, some ollamaUnavailableMsg, []⟩ := by
  have hcli : connectionUnavailable stCli = false := by
    simp [connectionUnavailable, h1, h2]
  have hun : connectionUnavailable stUn = true := by
    simp [connectionUnavailable, h3, h4]
  refine ⟨?_, ?_, ?_, ?_, ?_, ?_, ?_, ?_, ?_, ?_, ?_, ?_, ?_, ?_, ?_⟩ <;>
    simp [createModelRoute, deleteModelRoute, copyModelRoute, showModelRoute,
      pullModelRoute, pushModelRoute, embeddingsRoute, hcli, hun, h1, h3]

/-- Witness for C7 at concrete CliFallback and Unavailable states. -/
theorem management_unsupported_by_mode_witness :
    deleteModelRoute cliOnlyState (Except.ok ()) "llama3" = ⟨400, some httpOnlyMsg, []⟩ :=
  (management_unsupported_by_mode cliOnlyState noBackendState (Except.ok ())
    "llama3" "FROM llama3" "llama3" "copy" "llama3" "hello"
    rfl rfl rfl rfl).2.1

/-- Claim C8: the state init resolves satisfies: never both transports at
once; the derived mode is networkAPI exactly when the SDK client exists,
cliFallback exactly when only the CLI flag is set, unavailable exactly
when neither is (so exactly one of the three modes is active); and no
sequence of requests served afterwards changes the adapter state, in
particular neither the resolved mode nor the active endpoint. -/
theorem post_init_invariants (e : Env) :
    (¬ ((initOllamaState e).ollama.isSome = true ∧ (initOllamaState e).useCLI = true))
    ∧ ((initOllamaState e).mode = Mode.networkAPI
        ↔ (initOllamaState e).ollama.isSome = true)
    ∧ ((initOllamaState e).mode = Mode.cliFallback
        ↔ ((initOllamaState e).ollama = none ∧ (initOllamaState e).useCLI = true))
    ∧ ((initOllamaState e).mode = Mode.unavailable
        ↔ ((initOllamaState e).ollama = none ∧ (initOllamaState e).useCLI = false))
    ∧ (∀ calls : List ApiCall, runCalls (initOllamaState e) calls = initOllamaState e) :=
  ⟨initOllamaState_not_both e, (mode_trichotomy _).1, (mode_trichotomy _).2.1,
   (mode_trichotomy _).2.2, fun calls => runCalls_id _ calls⟩

/-- Claim C9: the prompt the CLI transport hands to the shell is the
source text with every double quote turned into backslash-quote and every
dollar into backslash-dollar and nothing else altered (so backticks and
backslashes pass through unchanged), and the exact command line the chat
and generate handlers run is the echo pipeline built from that escaped
text. -/
theorem cli_prompt_escaping :
    (∀ s : String, escapePrompt s = escapeSpec s)
    ∧ (∀ c : Char, c ≠ '"' → c ≠ '$' → escapeSpecChar c = [c])
    ∧ (∀ (run : String → ExecBehavior) (model : String) (messages : List Message)
        (msg : Message), messages.getLast? = some msg →
        (chatViaCLI run model messages).2
          = [Effect.subprocess ("echo \"" ++ escapeSpec msg.content ++ "\" | ollama run " ++ model)])
    ∧ (∀ (run : String → ExecBehavior) (model prompt : String),
        (generateViaCLI run model prompt).2
          = [Effect.subprocess ("echo \"" ++ escapeSpec prompt ++ "\" | ollama run " ++ model)]) := by
  refine ⟨escapePrompt_eq_escapeSpec, ?_, ?_, ?_⟩
  · intro c hc1 hc2
    simp [escapeSpecChar, hc1, hc2]
  · intro run model messages msg h
    rw [← escapePrompt_eq_escapeSpec]
    exact chatViaCLI_effects run model messages msg h
  · intro run model prompt
    rw [← escapePrompt_eq_escapeSpec]
    exact generateViaCLI_effects run model prompt

/-- Claim C10: chat under CliFallback with an empty messages list hits the
unguarded read of the last message: the handler neither performs a
subprocess invocation nor returns a response envelope or one of the
defined error bodies — it surfaces the wrapped TypeError as a 500. -/
theorem chat_empty_messages_precondition (st : OllamaState)
    (run : String → ExecBehavior) (net : Except String Unit) (req : ChatRequest)
    (holl : st.ollama = none) (hcli : st.useCLI = true)
    (hstream : req.stream = false) (hmsg : req.messages = []) :
    chatRoute st run net req
      = ⟨500, some ("CLI Chat Error: " ++ typeErrorUndefinedContent), []⟩
    ∧ (chatViaCLI run req.model req.messages).1
        = ChatOutcome.err ("CLI Chat Error: " ++ typeErrorUndefinedContent)
    ∧ (chatViaCLI run req.model req.messages).2 = []
    ∧ ("CLI Chat Error: " ++ typeErrorUndefinedContent) ≠ cliStreamingMsg
    ∧ ("CLI Chat Error: " ++ typeErrorUndefinedContent) ≠ ollamaUnavailableMsg
    ∧ ("CLI Chat Error: " ++ typeErrorUndefinedContent) ≠ httpOnlyMsg := by
  have hcu : connectionUnavailable st = false := by
    simp [connectionUnavailable, holl, hcli]
  refine ⟨?_, ?_, ?_, by decide, by decide, by decide⟩
  · simp [chatRoute, hcu, holl, hstream, hmsg, chatViaCLI]
  · simp [hmsg, chatViaCLI]
  · simp [hmsg, chatViaCLI]

/-- Witness for C10 at a concrete CliFallback state and empty-messages
request. -/
theorem chat_empty_messages_precondition_witness :
    chatRoute cliOnlyState dummyRun (Except.ok ())
        { model := "llama3", messages := [], stream := false }
      = ⟨500, some ("CLI Chat Error: " ++ typeErrorUndefinedContent), []⟩ :=
  (chat_empty_messages_precondition cliOnlyState dummyRun (Except.ok ())
    { model := "llama3", messages := [], stream := false } rfl rfl rfl rfl).1

end GunOllama
